import Mathlib

/-!
Shallow embedding of the "Pallet Cleanser Music" web application
(`src/app.js`, `src/models/User.js`, `src/models/MusicTrack.js`).

The application is a thin layer of Express route handlers over MongoDB via
Mongoose.  We embed the persistent state (users, tracks, sessions) as Lean
structures holding lists of records, and each route handler as a pure
function from state (plus the request parameters) to a response value and a
new state.  External collaborators (bcryptjs, the express-session store)
are modelled by small pure functions faithful to their contracts.
-/

namespace PalletCleanser

/-- Model of the external `bcryptjs` collaborator used in
`src/models/User.js`.  `bcrypt.hash(p, 10)` produces a salted digest from
which `p` is recoverable only by `bcrypt.compare`; we model the digest as a
tagged string, which keeps the library's contract
`compare(c, hash(p)) = (c = p)` (ignoring hash collisions). -/
def bcryptHash (plain : String) : String :=
  "$2a$10$" ++ plain

/-- Model of `bcrypt.compare(candidate, stored)` from `bcryptjs`. -/
def bcryptCompare (candidate stored : String) : Bool :=
  stored == bcryptHash candidate

/-- A document of the `MusicTrack` collection (`src/models/MusicTrack.js`).
`id` models the Mongo `_id`; `createdAt` defaults to the insertion time. -/
structure Track where
  id : Nat
  name : String
  artist : String
  genre : String
  embedUrl : String
  createdAt : Nat
  deriving Repr, DecidableEq

/-- A document of the `User` collection (`src/models/User.js`).
`password` holds whatever string is stored in the `password` field; after a
save it is the bcrypt hash produced by the pre-save hook.  `favorites` is
the array of track ObjectIds. -/
structure User where
  id : Nat
  username : String
  password : String
  favorites : List Nat
  deriving Repr, DecidableEq

/-- One record of the session store (`connect-mongo` `sessions` collection):
an opaque token mapped to the bound `userId` and its creation time (ms). -/
structure SessionRecord where
  token : Nat
  userId : Nat
  createdAt : Nat
  deriving Repr, DecidableEq

/-- The persistent state of the application: the three durable
collections. -/
structure AppState where
  users : List User
  tracks : List Track
  sessions : List SessionRecord
  deriving Repr, DecidableEq

/-- `User.findById(userId)` (`src/app.js` uses it to load the session's
user). -/
def getUser (st : AppState) (userId : Nat) : Option User :=
  st.users.find? (fun u => u.id == userId)

/-- `User.findOne({ username })` (`src/app.js:110`). -/
def findByUsername (st : AppState) (username : String) : Option User :=
  st.users.find? (fun u => u.username == username)

/-- `MusicTrack.findById(trackId)`; also the per-id resolution step of
Mongoose `populate('favorites')`. -/
def findTrack (st : AppState) (trackId : Nat) : Option Track :=
  st.tracks.find? (fun tr => tr.id == trackId)

/-- `MusicTrack.find({})` (`src/app.js:176`). -/
def findAllTracks (st : AppState) : List Track :=
  st.tracks

/-- `user.comparePassword(candidatePassword)`
(`src/models/User.js:29-31`). -/
def comparePassword (u : User) (candidatePassword : String) : Bool :=
  bcryptCompare candidatePassword u.password

/-- The observable outcome of `POST /register` (`src/app.js:88-105`):
either the register form is re-rendered with an error message, or the user
is created and the response redirects to `/`. -/
inductive RegisterResult where
  | renderRegister (error : String)
  | redirectHome
  deriving Repr, DecidableEq

/-- `POST /register` (`src/app.js:88-105`).  The handler validates the
form fields (absent fields arrive as falsy, modelled by `""`), then saves a
new `User`; the pre-save hook (`src/models/User.js:21-26`) hashes the
password.  Mongo's unique index on `username` rejects a duplicate with
error code 11000, which the handler turns into the taken-username message.
`newId` models the ObjectId Mongo assigns to the inserted document. -/
def registerUser (st : AppState) (username password : String) (newId : Nat) :
    RegisterResult × AppState :=
  if username == "" || password == "" || password.length < 6 then
    (.renderRegister "Username/Password cannot be empty or password too short.", st)
  else if st.users.any (fun u => u.username == username) then
    (.renderRegister "That username is already taken. Please try another.", st)
  else
    let newUser : User :=
      { id := newId, username := username,
        password := bcryptHash password, favorites := [] }
    (.redirectHome, { st with users := newUser :: st.users })

/-- MongoDB `$addToSet`: append the value only if absent
(`src/app.js:226`). -/
def addToSet (l : List Nat) (x : Nat) : List Nat :=
  if x ∈ l then l else l ++ [x]

/-- MongoDB `$pull`: remove every occurrence of the value
(`src/app.js:161` and `src/app.js:237`). -/
def pull (l : List Nat) (x : Nat) : List Nat :=
  l.filter (fun y => y ≠ x)

/-- The observable outcome of the favorite-management routes: on the
happy path both redirect to `/favorites`; only a store failure (not
modelled) yields the 500 branch. -/
inductive FavResult where
  | redirectFavorites
  | serverError (msg : String)
  deriving Repr, DecidableEq

/-- `POST /favorite/:id` (`src/app.js:222-232`):
`User.findByIdAndUpdate(userId, { $addToSet: { favorites: trackId } })`
followed by a redirect to `/favorites`.  No lookup of the track is
performed.  `findByIdAndUpdate` on an absent user id is a no-op. -/
def favoriteRoute (st : AppState) (userId trackId : Nat) :
    FavResult × AppState :=
  (.redirectFavorites,
   { st with users := st.users.map (fun u =>
       if u.id == userId then { u with favorites := addToSet u.favorites trackId } else u) })

/-- `POST /unfavorite/:id` (`src/app.js:233-243`):
`User.findByIdAndUpdate(userId, { $pull: { favorites: trackId } })`
followed by a redirect to `/favorites`. -/
def unfavoriteRoute (st : AppState) (userId trackId : Nat) :
    FavResult × AppState :=
  (.redirectFavorites,
   { st with users := st.users.map (fun u =>
       if u.id == userId then { u with favorites := pull u.favorites trackId } else u) })

/-- The populated favorites list served by `GET /favorites`
(`src/app.js:246-259`): `User.findById(...).populate('favorites')`
resolves each stored id to its track document, and Mongoose drops array
entries whose referenced document no longer exists.  `none` models the
absent-user case (where the handler would fault on `user.favorites`). -/
def listFavorites (st : AppState) (userId : Nat) : Option (List Track) :=
  (getUser st userId).map (fun u => u.favorites.filterMap (findTrack st))

/-- The observable outcome of `POST /delete/:id`
(`src/app.js:151-170`). -/
inductive DeleteResult where
  | redirectBrowse
  | serverError (msg : String)
  deriving Repr, DecidableEq

/-- `POST /delete/:id` (`src/app.js:151-170`):
`MusicTrack.findByIdAndDelete(trackId)` (its `null` result on an absent id
is ignored), then `User.updateMany({}, { $pull: { favorites: trackId } })`,
then a redirect to `/browse` — unconditionally, whether or not the track
existed. -/
def deleteTrackRoute (st : AppState) (trackId : Nat) :
    DeleteResult × AppState :=
  (.redirectBrowse,
   { st with
     tracks := st.tracks.filter (fun tr => tr.id ≠ trackId),
     users := st.users.map (fun u => { u with favorites := pull u.favorites trackId }) })

/-- JS `String.prototype.startsWith` on character lists (helper for
`includes`). -/
def charsPre : List Char → List Char → Bool
  | [], _ => true
  | _ :: _, [] => false
  | a :: as, b :: bs => a == b && charsPre as bs

/-- Character-list substring search (helper for `includes`). -/
def charsSubstr (pat : List Char) : List Char → Bool
  | [] => charsPre pat []
  | c :: rest => charsPre pat (c :: rest) || charsSubstr pat rest

/-- JS `s.includes(pat)` as used in `src/app.js:133`. -/
def strIncludes (s pat : String) : Bool :=
  charsSubstr pat.data s.data

/-- The observable outcome of `POST /add` (`src/app.js:130-148`): a
redirect to `/` carrying a user-facing error query, a plain redirect to
`/` on success, or the 500 response from the catch block. -/
inductive AddTrackResult where
  | redirectWithError (msg : String)
  | redirectHome
  | serverError (msg : String)
  deriving Repr, DecidableEq

/-- JS truthiness test of an optional form field (`!name`): an absent
field is `undefined`, an empty string is falsy too. -/
def falsyField : Option String → Bool
  | none => true
  | some s => s == ""

/-- `field || defaultValue` for optional form fields
(`src/app.js:138-139`). -/
def fieldOrDefault (field : Option String) (d : String) : String :=
  match field with
  | none => d
  | some s => if s == "" then d else s

/-- `POST /add` (`src/app.js:130-148`).  The guard is
`!name || !embedUrl.includes('youtube.com/embed/')`: a falsy `name`
short-circuits to the user-facing redirect; otherwise, if `embedUrl` is
absent (`undefined`), `embedUrl.includes` throws a `TypeError`, which the
catch block converts into a 500 response.  On success a new `MusicTrack`
is saved with defaulted `artist`/`genre` and the response redirects
to `/`. -/
def addTrackRoute (st : AppState) (name artist genre embedUrl : Option String)
    (newId now : Nat) : AddTrackResult × AppState :=
  if falsyField name then
    (.redirectWithError "Invalid track details: Name is required, and URL must be a YouTube embed link.", st)
  else
    match embedUrl with
    | none => (.serverError "Error adding track. Check server logs.", st)
    | some url =>
      if !(strIncludes url "youtube.com/embed/") then
        (.redirectWithError "Invalid track details: Name is required, and URL must be a YouTube embed link.", st)
      else
        let newTrack : Track :=
          { id := newId,
            name := (name.getD ""),
            artist := fieldOrDefault artist "User Contributed",
            genre := fieldOrDefault genre "Unknown Palate Cleanser",
            embedUrl := url,
            createdAt := now }
        (.redirectHome, { st with tracks := st.tracks ++ [newTrack] })

/-- The `$sample`-based random pick of `GET /` (`src/app.js:200-202`):
`aggregate([{ $sample: { size: 1 } }])` returns a singleton of a uniformly
chosen document, or the empty array on an empty collection, and the
handler takes element `[0]` — `undefined` (here `none`) when the store is
empty.  `r` models the aggregation's random draw. -/
def findRandom (st : AppState) (r : Nat) : Option Track :=
  st.tracks.get? (r % st.tracks.length)

/-- The session cookie lifetime configured in `src/app.js:71`:
`maxAge: 1000 * 60 * 60 * 24` milliseconds (24 hours). -/
def sessionTTL : Nat := 1000 * 60 * 60 * 24

/-- Modelled from the spec: the session machinery itself lives in the
external `express-session`/`connect-mongo` middleware, not under `src/`;
only its configuration (`src/app.js:63-72`) and uses are.  Per §4.2,
`start(userId)` creates a session bound to `userId` with a TTL of 24 hours
from creation; the token is the cookie value. -/
def startSession (store : List SessionRecord) (userId token now : Nat) :
    List SessionRecord :=
  { token := token, userId := userId, createdAt := now } :: store

/-- Modelled from the spec: `resolve(token)` (§4.2) returns the bound
user id while the session is within its TTL, and `none`
(`Unauthenticated`, the redirect of `isAuthenticated`,
`src/app.js:75-82`) otherwise. -/
def resolveSession (store : List SessionRecord) (token now : Nat) :
    Option Nat :=
  match store.find? (fun s => s.token == token) with
  | some s => if now < s.createdAt + sessionTTL then some s.userId else none
  | none => none

/-- Modelled from the spec: `destroy(token)` (§4.2), the server side of
`req.session.destroy` in `POST /logout` (`src/app.js:121-126`): the
session record is removed from the store. -/
def destroySession (store : List SessionRecord) (token : Nat) :
    List SessionRecord :=
  store.filter (fun s => s.token ≠ token)

/-! ### Helper lemmas -/

theorem bcryptHash_inj {a b : String} (h : bcryptHash a = bcryptHash b) :
    a = b := by
  have hd := congrArg String.data h
  simp only [bcryptHash, String.data_append] at hd
  exact String.ext (List.append_cancel_left hd)

theorem find?_map_id_pres (f : User → User) (hid : ∀ u, (f u).id = u.id)
    (users : List User) (uid : Nat) :
    (users.map f).find? (fun u => u.id == uid) =
      (users.find? (fun u => u.id == uid)).map f := by
  have hp : ((fun u : User => u.id == uid) ∘ f) = (fun u : User => u.id == uid) := by
    funext u
    simp [Function.comp, hid]
  rw [List.find?_map, hp]

theorem countP_filterMap_findTrack (st : AppState) (t : Nat) (tr : Track)
    (htr : findTrack st t = some tr) (favs : List Nat) :
    (favs.filterMap (findTrack st)).countP (fun x => x.id == t) =
      favs.count t := by
  induction favs with
  | nil => rfl
  | cons a rest ih =>
    rw [List.filterMap_cons]
    cases ha : findTrack st a with
    | none =>
      have hat : a ≠ t := by
        intro he
        rw [he, htr] at ha
        cases ha
      rw [List.count_cons, ih]
      simp [hat]
    | some y =>
      have hy : y.id = a := by
        have := List.find?_some ha
        simpa using this
      rw [List.countP_cons, List.count_cons, ih]
      by_cases hat : a = t
      · subst hat
        simp [hy]
      · simp [hy, hat]

theorem mem_addToSet_self (l : List Nat) (t : Nat) : t ∈ addToSet l t := by
  unfold addToSet
  by_cases h : t ∈ l <;> simp [h]

theorem count_addToSet_self (l : List Nat) (t : Nat) (h : l.count t ≤ 1) :
    (addToSet l t).count t = 1 := by
  unfold addToSet
  by_cases hm : t ∈ l
  · rw [if_pos hm]
    have := List.count_pos_iff.mpr hm
    omega
  · rw [if_neg hm, List.count_append]
    have hz := List.count_eq_zero.mpr hm
    simp [hz]

theorem not_mem_pull (l : List Nat) (t : Nat) : t ∉ pull l t := by
  intro h
  have := (List.mem_filter.mp h).2
  simp at this

theorem pull_eq_self_of_not_mem (l : List Nat) (t : Nat) (h : t ∉ l) :
    pull l t = l := by
  apply List.filter_eq_self.mpr
  intro a ha
  simp only [decide_eq_true_eq, ne_eq]
  intro he
  exact h (he ▸ ha)

theorem find?_destroySession (store : List SessionRecord) (tok : Nat) :
    (destroySession store tok).find? (fun s => s.token == tok) = none := by
  apply List.find?_eq_none.mpr
  intro s hs
  have h2 := (List.mem_filter.mp hs).2
  simp at h2 ⊢
  exact h2

theorem registerUser_success (st : AppState) (username password : String)
    (newId : Nat)
    (hname : username ≠ "") (hlen : 6 ≤ password.length)
    (hunused : ∀ u ∈ st.users, u.username ≠ username) :
    registerUser st username password newId =
      (RegisterResult.redirectHome,
       { st with users :=
           { id := newId, username := username,
             password := bcryptHash password, favorites := [] } :: st.users }) := by
  have hpne : password ≠ "" := by
    intro he
    rw [he] at hlen
    exact absurd hlen (by decide)
  have hcond : (username == "" || password == "" || decide (password.length < 6)) = false := by
    simp [hname, hpne]
    omega
  have hany : st.users.any (fun u => u.username == username) = false := by
    simp only [List.any_eq_false]
    intro u hu
    simp [hunused u hu]
  simp only [registerUser, hcond, Bool.false_eq_true, if_false, hany]

theorem registerUser_duplicate (st : AppState) (username password : String)
    (newId : Nat)
    (hname : username ≠ "") (hlen : 6 ≤ password.length)
    (htaken : ∃ u ∈ st.users, u.username = username) :
    registerUser st username password newId =
      (RegisterResult.renderRegister "That username is already taken. Please try another.", st) := by
  have hpne : password ≠ "" := by
    intro he
    rw [he] at hlen
    exact absurd hlen (by decide)
  have hcond : (username == "" || password == "" || decide (password.length < 6)) = false := by
    simp [hname, hpne]
    omega
  have hany : st.users.any (fun u => u.username == username) = true := by
    simp only [List.any_eq_true]
    obtain ⟨u, hu, he⟩ := htaken
    exact ⟨u, hu, by simp [he]⟩
  simp only [registerUser, hcond, Bool.false_eq_true, if_false, hany, if_true]

/-- C2: for every unused non-empty username and every password of length at
least 6, `POST /register` succeeds (redirects to `/`), and the stored user
verifies the same password and rejects every other password via
`comparePassword`. -/
theorem register_verify_roundtrip (st : AppState) (username password : String)
    (newId : Nat)
    (hname : username ≠ "") (hlen : 6 ≤ password.length)
    (hunused : ∀ u ∈ st.users, u.username ≠ username) :
    (registerUser st username password newId).1 = RegisterResult.redirectHome ∧
    ∃ u, findByUsername (registerUser st username password newId).2 username = some u ∧
      comparePassword u password = true ∧
      ∀ other, other ≠ password → comparePassword u other = false := by
  rw [registerUser_success st username password newId hname hlen hunused]
  refine ⟨rfl, ⟨{ id := newId, username := username,
                  password := bcryptHash password, favorites := [] }, ?_, ?_, ?_⟩⟩
  · exact List.find?_cons_of_pos _ (by simp)
  · simp [comparePassword, bcryptCompare]
  · intro other hother
    simp only [comparePassword, bcryptCompare, beq_eq_false_iff_ne, ne_eq]
    intro h
    exact hother (bcryptHash_inj h).symm

/-- Witness for C2 at a concrete input. -/
theorem register_verify_roundtrip_witness :
    ("alice" ≠ "" ∧ 6 ≤ "password1".length) ∧
    ((registerUser ⟨[], [], []⟩ "alice" "password1" 1).1 = RegisterResult.redirectHome ∧
     ∃ u, findByUsername (registerUser ⟨[], [], []⟩ "alice" "password1" 1).2 "alice" = some u ∧
       comparePassword u "password1" = true ∧
       ∀ other, other ≠ "password1" → comparePassword u other = false) :=
  ⟨⟨by decide, by decide⟩,
   register_verify_roundtrip ⟨[], [], []⟩ "alice" "password1" 1
     (by decide) (by decide) (by intro u hu; exact absurd hu (List.not_mem_nil u))⟩

/-- C3: registering the same username twice — the second call renders the
taken-username error (the handler's translation of Mongo's duplicate-key
error 11000), the state is unchanged by the failed attempt, and the first
user's record (password hash and favorites) is still what the first call
stored. -/
theorem duplicate_register_rejected (st : AppState) (username pw1 pw2 : String)
    (id1 id2 : Nat)
    (hname : username ≠ "") (hlen1 : 6 ≤ pw1.length) (hlen2 : 6 ≤ pw2.length)
    (hunused : ∀ u ∈ st.users, u.username ≠ username) :
    (registerUser (registerUser st username pw1 id1).2 username pw2 id2).1 =
      RegisterResult.renderRegister "That username is already taken. Please try another." ∧
    (registerUser (registerUser st username pw1 id1).2 username pw2 id2).2 =
      (registerUser st username pw1 id1).2 ∧
    findByUsername (registerUser (registerUser st username pw1 id1).2 username pw2 id2).2 username =
      some { id := id1, username := username, password := bcryptHash pw1, favorites := [] } := by
  rw [registerUser_success st username pw1 id1 hname hlen1 hunused]
  have htaken : ∃ u ∈ User.mk id1 username (bcryptHash pw1) [] :: st.users,
      u.username = username :=
    ⟨User.mk id1 username (bcryptHash pw1) [], List.mem_cons_self _ _, rfl⟩
  rw [registerUser_duplicate _ username pw2 id2 hname hlen2 htaken]
  exact ⟨rfl, rfl, List.find?_cons_of_pos _ (by simp)⟩

/-- Witness for C3 at a concrete input. -/
theorem duplicate_register_rejected_witness :
    ("alice" ≠ "" ∧ 6 ≤ "password1".length ∧ 6 ≤ "hunter22".length) ∧
    ((registerUser (registerUser ⟨[], [], []⟩ "alice" "password1" 1).2 "alice" "hunter22" 2).1 =
       RegisterResult.renderRegister "That username is already taken. Please try another." ∧
     (registerUser (registerUser ⟨[], [], []⟩ "alice" "password1" 1).2 "alice" "hunter22" 2).2 =
       (registerUser ⟨[], [], []⟩ "alice" "password1" 1).2 ∧
     findByUsername (registerUser (registerUser ⟨[], [], []⟩ "alice" "password1" 1).2 "alice" "hunter22" 2).2 "alice" =
       some { id := 1, username := "alice", password := bcryptHash "password1", favorites := [] }) :=
  ⟨⟨by decide, by decide, by decide⟩,
   duplicate_register_rejected ⟨[], [], []⟩ "alice" "password1" "hunter22" 1 2
     (by decide) (by decide) (by decide)
     (by intro u hu; exact absurd hu (List.not_mem_nil u))⟩

theorem getUser_favoriteRoute (st : AppState) (uid t : Nat) :
    getUser (favoriteRoute st uid t).2 uid =
      (getUser st uid).map (fun u =>
        if u.id == uid then { u with favorites := addToSet u.favorites t } else u) := by
  apply find?_map_id_pres
  intro u
  by_cases h : u.id == uid <;> simp [h]

theorem getUser_unfavoriteRoute (st : AppState) (uid t : Nat) :
    getUser (unfavoriteRoute st uid t).2 uid =
      (getUser st uid).map (fun u =>
        if u.id == uid then { u with favorites := pull u.favorites t } else u) := by
  apply find?_map_id_pres
  intro u
  by_cases h : u.id == uid <;> simp [h]

/-- C4: favorites add is idempotent with set semantics — after two
`POST /favorite/:id` calls for the same user and track, the stored
`favorites` array holds the id exactly once, and the populated list of
`GET /favorites` contains the track exactly once. -/
theorem favorite_add_idempotent (st : AppState) (uid t : Nat) (u : User) (tr : Track)
    (hu : getUser st uid = some u)
    (hcount : u.favorites.count t ≤ 1)
    (htr : findTrack st t = some tr) :
    ∃ u' l,
      getUser (favoriteRoute (favoriteRoute st uid t).2 uid t).2 uid = some u' ∧
      u'.favorites.count t = 1 ∧
      listFavorites (favoriteRoute (favoriteRoute st uid t).2 uid t).2 uid = some l ∧
      l.countP (fun x => x.id == t) = 1 := by
  have hu' : st.users.find? (fun v => v.id == uid) = some u := hu
  have hid : u.id = uid := by
    have h := List.find?_some hu'
    simpa using h
  have h1 : getUser (favoriteRoute st uid t).2 uid =
      some { u with favorites := addToSet u.favorites t } := by
    rw [getUser_favoriteRoute, hu]
    simp [hid]
  have h2 : getUser (favoriteRoute (favoriteRoute st uid t).2 uid t).2 uid =
      some { u with favorites := addToSet (addToSet u.favorites t) t } := by
    rw [getUser_favoriteRoute, h1]
    simp [hid]
  have hc1 : (addToSet (addToSet u.favorites t) t).count t = 1 := by
    have hfirst := count_addToSet_self u.favorites t hcount
    exact count_addToSet_self _ t (by omega)
  have h3 : listFavorites (favoriteRoute (favoriteRoute st uid t).2 uid t).2 uid =
      some ((addToSet (addToSet u.favorites t) t).filterMap (findTrack st)) := by
    unfold listFavorites
    rw [h2]
    rfl
  have h4 : ((addToSet (addToSet u.favorites t) t).filterMap (findTrack st)).countP
      (fun x => x.id == t) = 1 := by
    rw [countP_filterMap_findTrack st t tr htr]
    exact hc1
  exact ⟨_, _, h2, hc1, h3, h4⟩

/-- Witness for C4 at a concrete input. -/
theorem favorite_add_idempotent_witness :
    (getUser ⟨[User.mk 7 "alice" "h" []], [Track.mk 3 "n" "a" "g" "u" 0], []⟩ 7 =
       some (User.mk 7 "alice" "h" []) ∧
     findTrack ⟨[User.mk 7 "alice" "h" []], [Track.mk 3 "n" "a" "g" "u" 0], []⟩ 3 =
       some (Track.mk 3 "n" "a" "g" "u" 0)) ∧
    (∃ u' l,
      getUser (favoriteRoute (favoriteRoute ⟨[User.mk 7 "alice" "h" []], [Track.mk 3 "n" "a" "g" "u" 0], []⟩ 7 3).2 7 3).2 7 = some u' ∧
      u'.favorites.count 3 = 1 ∧
      listFavorites (favoriteRoute (favoriteRoute ⟨[User.mk 7 "alice" "h" []], [Track.mk 3 "n" "a" "g" "u" 0], []⟩ 7 3).2 7 3).2 7 = some l ∧
      l.countP (fun x => x.id == 3) = 1) :=
  ⟨⟨by decide, by decide⟩,
   favorite_add_idempotent ⟨[User.mk 7 "alice" "h" []], [Track.mk 3 "n" "a" "g" "u" 0], []⟩
     7 3 (User.mk 7 "alice" "h" []) (Track.mk 3 "n" "a" "g" "u" 0)
     (by decide) (by decide) (by decide)⟩

/-- C5: favorites remove on an absent entry is an idempotent no-op —
`POST /unfavorite/:id` for a track not in the user's favorites responds
with the success redirect, the user record is unchanged, and the
populated favorites list is unchanged. -/
theorem unfavorite_absent_noop (st : AppState) (uid t : Nat) (u : User)
    (hu : getUser st uid = some u) (habs : t ∉ u.favorites) :
    (unfavoriteRoute st uid t).1 = FavResult.redirectFavorites ∧
    getUser (unfavoriteRoute st uid t).2 uid = some u ∧
    listFavorites (unfavoriteRoute st uid t).2 uid = listFavorites st uid := by
  obtain ⟨ui, un, up, uf⟩ := u
  have habs' : t ∉ uf := habs
  have hu' : st.users.find? (fun v => v.id == uid) = some (User.mk ui un up uf) := hu
  have hid : ui = uid := by
    have h := List.find?_some hu'
    simpa using h
  have hg : getUser (unfavoriteRoute st uid t).2 uid = some (User.mk ui un up uf) := by
    rw [getUser_unfavoriteRoute, hu]
    simp [hid, pull_eq_self_of_not_mem uf t habs']
  refine ⟨rfl, hg, ?_⟩
  unfold listFavorites
  rw [hg, hu]
  rfl

/-- Witness for C5 at a concrete input. -/
theorem unfavorite_absent_noop_witness :
    (getUser ⟨[User.mk 7 "alice" "h" [2]], [], []⟩ 7 = some (User.mk 7 "alice" "h" [2]) ∧
     3 ∉ (User.mk 7 "alice" "h" [2]).favorites) ∧
    ((unfavoriteRoute ⟨[User.mk 7 "alice" "h" [2]], [], []⟩ 7 3).1 = FavResult.redirectFavorites ∧
     getUser (unfavoriteRoute ⟨[User.mk 7 "alice" "h" [2]], [], []⟩ 7 3).2 7 =
       some (User.mk 7 "alice" "h" [2]) ∧
     listFavorites (unfavoriteRoute ⟨[User.mk 7 "alice" "h" [2]], [], []⟩ 7 3).2 7 =
       listFavorites ⟨[User.mk 7 "alice" "h" [2]], [], []⟩ 7) :=
  ⟨⟨by decide, by decide⟩,
   unfavorite_absent_noop ⟨[User.mk 7 "alice" "h" [2]], [], []⟩ 7 3
     (User.mk 7 "alice" "h" [2]) (by decide) (by decide)⟩

/-- C1: deleting a track cascades into every user's favorites — after
`POST /delete/:id` for track `t`, every user record the store can resolve
has `t` pulled from its `favorites`, `findAll` returns no track with id
`t`, and the populated favorites list of any user contains no track with
id `t`. -/
theorem delete_cascades_favorites (st : AppState) (t uid : Nat) (u : User)
    (hu : getUser (deleteTrackRoute st t).2 uid = some u) :
    (deleteTrackRoute st t).1 = DeleteResult.redirectBrowse ∧
    t ∉ u.favorites ∧
    (∀ tr ∈ findAllTracks (deleteTrackRoute st t).2, tr.id ≠ t) ∧
    (∀ l, listFavorites (deleteTrackRoute st t).2 uid = some l →
      ∀ tr ∈ l, tr.id ≠ t) := by
  have hmap : getUser (deleteTrackRoute st t).2 uid =
      (getUser st uid).map (fun v => { v with favorites := pull v.favorites t }) :=
    find?_map_id_pres (fun v => { v with favorites := pull v.favorites t })
      (fun _ => rfl) st.users uid
  have hu2 : (getUser st uid).map (fun v => { v with favorites := pull v.favorites t }) =
      some u := by
    rw [← hmap]
    exact hu
  obtain ⟨u0, hu0, hfu⟩ := Option.map_eq_some'.mp hu2
  have hfav : t ∉ u.favorites := by
    rw [← hfu]
    exact not_mem_pull u0.favorites t
  have htracks : ∀ tr ∈ findAllTracks (deleteTrackRoute st t).2, tr.id ≠ t := by
    intro tr htr
    have h2 := (List.mem_filter.mp htr).2
    simpa using h2
  refine ⟨rfl, hfav, htracks, ?_⟩
  intro l hl tr htrl
  have hl' : l = u.favorites.filterMap (findTrack (deleteTrackRoute st t).2) := by
    unfold listFavorites at hl
    rw [hu] at hl
    simpa using hl.symm
  rw [hl'] at htrl
  obtain ⟨x, hx, hfx⟩ := List.mem_filterMap.mp htrl
  exact htracks tr (List.mem_of_find?_eq_some hfx)

/-- Witness for C1 at a concrete input: track 3, favorited by user 7, is
deleted. -/
theorem delete_cascades_favorites_witness :
    (getUser (deleteTrackRoute ⟨[User.mk 7 "alice" "h" [3]], [Track.mk 3 "n" "a" "g" "u" 0], []⟩ 3).2 7 =
       some (User.mk 7 "alice" "h" [])) ∧
    ((deleteTrackRoute ⟨[User.mk 7 "alice" "h" [3]], [Track.mk 3 "n" "a" "g" "u" 0], []⟩ 3).1 =
       DeleteResult.redirectBrowse ∧
     3 ∉ (User.mk 7 "alice" "h" ([] : List Nat)).favorites ∧
     (∀ tr ∈ findAllTracks (deleteTrackRoute ⟨[User.mk 7 "alice" "h" [3]], [Track.mk 3 "n" "a" "g" "u" 0], []⟩ 3).2, tr.id ≠ 3) ∧
     (∀ l, listFavorites (deleteTrackRoute ⟨[User.mk 7 "alice" "h" [3]], [Track.mk 3 "n" "a" "g" "u" 0], []⟩ 3).2 7 = some l →
       ∀ tr ∈ l, tr.id ≠ 3)) :=
  ⟨by decide,
   delete_cascades_favorites ⟨[User.mk 7 "alice" "h" [3]], [Track.mk 3 "n" "a" "g" "u" 0], []⟩
     3 7 (User.mk 7 "alice" "h" []) (by decide)⟩

/-- C10: `POST /favorite/:id` performs no existence check on the track —
for an id `t` that resolves to no track, the route still responds with the
success redirect and inserts `t` into the user's favorites, creating a
dangling entry, which the `populate` of `GET /favorites` silently
drops. -/
theorem favorite_no_existence_check (st : AppState) (uid t : Nat) (u : User)
    (hu : getUser st uid = some u)
    (htr : findTrack st t = none) :
    (favoriteRoute st uid t).1 = FavResult.redirectFavorites ∧
    ∃ u', getUser (favoriteRoute st uid t).2 uid = some u' ∧
      t ∈ u'.favorites ∧
      ∀ l, listFavorites (favoriteRoute st uid t).2 uid = some l →
        ∀ tr ∈ l, tr.id ≠ t := by
  have hu' : st.users.find? (fun v => v.id == uid) = some u := hu
  have hid : u.id = uid := by
    have h := List.find?_some hu'
    simpa using h
  have h1 : getUser (favoriteRoute st uid t).2 uid =
      some { u with favorites := addToSet u.favorites t } := by
    rw [getUser_favoriteRoute, hu]
    simp [hid]
  refine ⟨rfl, ⟨_, h1, mem_addToSet_self u.favorites t, ?_⟩⟩
  intro l hl tr htrl
  have hl' : l = (addToSet u.favorites t).filterMap (findTrack (favoriteRoute st uid t).2) := by
    unfold listFavorites at hl
    rw [h1] at hl
    simpa using hl.symm
  rw [hl'] at htrl
  obtain ⟨x, hx, hfx⟩ := List.mem_filterMap.mp htrl
  intro he
  have hxt : tr.id = x := by
    have h := List.find?_some hfx
    simpa using h
  rw [he] at hxt
  rw [← hxt] at hfx
  have hfx' : findTrack st t = some tr := hfx
  rw [htr] at hfx'
  cases hfx'

/-- Witness for C10 at a concrete input: user 7 favorites the nonexistent
track 3. -/
theorem favorite_no_existence_check_witness :
    (getUser ⟨[User.mk 7 "alice" "h" []], [], []⟩ 7 = some (User.mk 7 "alice" "h" []) ∧
     findTrack ⟨[User.mk 7 "alice" "h" []], [], []⟩ 3 = none) ∧
    ((favoriteRoute ⟨[User.mk 7 "alice" "h" []], [], []⟩ 7 3).1 = FavResult.redirectFavorites ∧
     ∃ u', getUser (favoriteRoute ⟨[User.mk 7 "alice" "h" []], [], []⟩ 7 3).2 7 = some u' ∧
       3 ∈ u'.favorites ∧
       ∀ l, listFavorites (favoriteRoute ⟨[User.mk 7 "alice" "h" []], [], []⟩ 7 3).2 7 = some l →
         ∀ tr ∈ l, tr.id ≠ 3) :=
  ⟨⟨by decide, by decide⟩,
   favorite_no_existence_check ⟨[User.mk 7 "alice" "h" []], [], []⟩ 7 3
     (User.mk 7 "alice" "h" []) (by decide) (by decide)⟩

/-- C6 counterexample: `POST /delete/:id` on an id present in no track
(here id 0 against an empty store) responds with the success redirect to
`/browse`; no `NotFound` failure is ever surfaced, refuting the claim that
deleting an absent id fails. -/
theorem delete_absent_succeeds_cex :
    (∀ tr ∈ findAllTracks ⟨[], [], []⟩, tr.id ≠ 0) ∧
    (deleteTrackRoute ⟨[], [], []⟩ 0).1 = DeleteResult.redirectBrowse ∧
    (deleteTrackRoute ⟨[], [], []⟩ 0).2 = ⟨[], [], []⟩ := by
  refine ⟨?_, rfl, rfl⟩
  intro tr htr
  exact absurd htr (List.not_mem_nil tr)

/-- C6 amended: `POST /delete/:id` on an id present in no track silently
succeeds — it responds with the redirect to `/browse` and leaves the set
of tracks unchanged (the cascade `$pull` still runs). -/
theorem delete_absent_silently_succeeds (st : AppState) (t : Nat)
    (habs : ∀ tr ∈ st.tracks, tr.id ≠ t) :
    (deleteTrackRoute st t).1 = DeleteResult.redirectBrowse ∧
    findAllTracks (deleteTrackRoute st t).2 = findAllTracks st := by
  refine ⟨rfl, ?_⟩
  show st.tracks.filter (fun tr => tr.id ≠ t) = st.tracks
  apply List.filter_eq_self.mpr
  intro tr htr
  simpa using habs tr htr

/-- Witness for the amended C6 at a concrete input. -/
theorem delete_absent_silently_succeeds_witness :
    (∀ tr ∈ (AppState.mk [] [Track.mk 3 "n" "a" "g" "u" 0] []).tracks, tr.id ≠ 5) ∧
    ((deleteTrackRoute ⟨[], [Track.mk 3 "n" "a" "g" "u" 0], []⟩ 5).1 = DeleteResult.redirectBrowse ∧
     findAllTracks (deleteTrackRoute ⟨[], [Track.mk 3 "n" "a" "g" "u" 0], []⟩ 5).2 =
       findAllTracks ⟨[], [Track.mk 3 "n" "a" "g" "u" 0], []⟩) :=
  ⟨by decide,
   delete_absent_silently_succeeds ⟨[], [Track.mk 3 "n" "a" "g" "u" 0], []⟩ 5 (by decide)⟩

/-- C7: evaluation of `POST /add` at the failing input — a non-empty name
together with an absent embed reference.  The guard
`!name || !embedUrl.includes('youtube.com/embed/')` evaluates
`embedUrl.includes` on `undefined`, which throws a `TypeError` that the
catch block converts into the 500 response: a server fault, where the
claim (and the validation guard's evident intent) requires a locally
recovered `InvalidInput`. -/
theorem add_absent_embed_is_server_error :
    (addTrackRoute ⟨[], [], []⟩ (some "Song") none none none 1 0).1 =
      AddTrackResult.serverError "Error adding track. Check server logs." ∧
    (addTrackRoute ⟨[], [], []⟩ none none none none 1 0).1 =
      AddTrackResult.redirectWithError "Invalid track details: Name is required, and URL must be a YouTube embed link." ∧
    (addTrackRoute ⟨[], [], []⟩ (some "Song") none none (some "https://vimeo.com/x") 1 0).1 =
      AddTrackResult.redirectWithError "Invalid track details: Name is required, and URL must be a YouTube embed link." := by
  refine ⟨rfl, rfl, ?_⟩
  decide

/-- C8: `findRandom` (the `$sample` aggregation of `GET /`) on a Track
Store with zero tracks returns `none` (`Empty`) for every random draw; no
track record, malformed or otherwise, is produced. -/
theorem findRandom_empty_returns_empty (users : List User)
    (sessions : List SessionRecord) (r : Nat) :
    findRandom ⟨users, [], sessions⟩ r = none := rfl

/-- C9: session TTL behaviour — a session created by `start` resolves to
its user at every instant strictly before 24 hours
(`sessionTTL = 86400000` ms) have elapsed since creation, and resolves to
`none` (`Unauthenticated`) at every instant from TTL expiry on, and at
every instant after `destroy`. -/
theorem session_ttl_behavior (store : List SessionRecord)
    (uid token now t1 t2 t3 : Nat)
    (h1 : t1 < now + sessionTTL)
    (h2 : now + sessionTTL ≤ t2) :
    resolveSession (startSession store uid token now) token t1 = some uid ∧
    resolveSession (startSession store uid token now) token t2 = none ∧
    resolveSession (destroySession (startSession store uid token now) token) token t3 = none := by
  have hfind : (startSession store uid token now).find? (fun s => s.token == token) =
      some (SessionRecord.mk token uid now) :=
    List.find?_cons_of_pos _ (by simp)
  refine ⟨?_, ?_, ?_⟩
  · unfold resolveSession
    rw [hfind]
    simp [h1]
  · unfold resolveSession
    rw [hfind]
    simp
    omega
  · unfold resolveSession
    rw [find?_destroySession]

/-- Witness for C9 at a concrete input. -/
theorem session_ttl_behavior_witness :
    ((0 : Nat) < 0 + sessionTTL ∧ 0 + sessionTTL ≤ 86400000) ∧
    (resolveSession (startSession [] 9 100 0) 100 0 = some 9 ∧
     resolveSession (startSession [] 9 100 0) 100 86400000 = none ∧
     resolveSession (destroySession (startSession [] 9 100 0) 100) 100 0 = none) :=
  ⟨⟨by decide, by decide⟩,
   session_ttl_behavior [] 9 100 0 0 86400000 0 (by decide) (by decide)⟩

end PalletCleanser
